import Mathlib

/-!
Shallow embedding of `check_validator_setup` (`src/main.go`).

The network and the clock are abstracted as an explicit environment `Env` of
response functions; the four endpoint probes and the orchestration loop of
`main` are translated from the Go source. `time.Duration` (an `int64` count of
nanoseconds) is modelled as `Int`, and HTTP status codes (Go `int`) as `Int`;
the values produced here are small, so machine-integer overflow is immaterial.
Rendering (progress bar, tables, printing) is out of scope, except for the
JSON encoding of the result set, which is modelled at the level of a JSON
syntax tree.
-/

namespace CheckValidatorSetup

/-- Go `time.Duration`: an `int64` count of nanoseconds. -/
abbrev Duration := Int

/-- One entry of the `Validators` slice of `type config struct` in `main.go`
(fields `name`, `grpc`, `rest`, `gql`). -/
structure validatorConfig where
  Name : String
  GRPC : String
  REST : String
  GQL : String
deriving DecidableEq

/-- `type config struct` in `main.go`. -/
structure config where
  Validators : List validatorConfig
deriving DecidableEq

/-- `type aPIResult struct` in `main.go` (JSON keys `api`, `time_taken`, `error`). -/
structure aPIResult where
  API : String
  TimeTaken : Duration
  Error : String
deriving DecidableEq

/-- `type results struct` in `main.go` (JSON keys `name`, `api_results`). -/
structure results where
  Name : String
  APIResults : List aPIResult
deriving DecidableEq

/-- `const gqlPayload` in `main.go`: the fixed GraphQL query body. -/
def gqlPayload : String := "\x7b\"query\": \"\x7bepoch\x7bid\x7d\x7d\"\x7d"

/-- HTTP method used by a probe request. -/
inductive HttpMethod where
  | get
  | post
deriving DecidableEq

/-- An HTTP request as assembled by `checkREST` / `checkGQL` before it is
handed to `http.DefaultClient.Do`. -/
structure HttpRequest where
  method : HttpMethod
  url : String
  body : Option String
  headers : List (String × String)
deriving DecidableEq

/-- Result of `http.DefaultClient.Do`: either a transport-level error or a
response carrying a status code and a body. -/
inductive HttpOutcome where
  | transportError (msg : String)
  | response (statusCode : Int) (body : String)
deriving DecidableEq

/-- The `credentials.TransportCredentials` selected by the gRPC probes:
`credentials.NewClientTLSFromCert(nil, "")` or `insecure.NewCredentials()`. -/
inductive Creds where
  | tls
  | insecure
deriving DecidableEq

/-- The external world as observed by `main.go`, one field per effectful call:
`url.JoinPath`, request construction failure of `http.NewRequestWithContext`
(and the tiny elapsed time `time.Since` reports on that path), the timed
`http.DefaultClient.Do` exchange, `grpc.Dial`, and the two timed gRPC calls
(`CoreService.Statistics`, `TradingDataService.Info`), each returning elapsed
wall time together with an optional error message (`err.Error()`). -/
structure Env where
  joinPath : String → String → Except String String
  newRequestErr : HttpMethod → String → Option String
  buildFailElapsed : Duration
  perform : HttpRequest → Duration × HttpOutcome
  dial : String → Creds → Option String
  statistics : String → Creds → Duration × Option String
  info : String → Creds → Duration × Option String

/-- `func checkREST` in `main.go`: join `api/v2/info` onto the base address
(failure returns duration 0), then issue a GET; a transport error or a
non-200 status is an error carrying the elapsed time. -/
def checkREST (env : Env) (address : String) : Duration × Option String :=
  match env.joinPath address "api/v2/info" with
  | .error e => (0, some e)
  | .ok s =>
    match env.newRequestErr .get s with
    | some e => (env.buildFailElapsed, some e)
    | none =>
      let r := env.perform ⟨.get, s, none, []⟩
      match r.2 with
      | .transportError msg => (r.1, some msg)
      | .response code _ =>
        if code ≠ 200 then (r.1, some ("unexpected http status code: " ++ toString code))
        else (r.1, none)

/-- `func checkGQL` in `main.go`: POST the fixed payload with
`Content-Type: application/json` to the address itself (no path joining). -/
def checkGQL (env : Env) (address : String) : Duration × Option String :=
  let s := address
  match env.newRequestErr .post s with
  | some e => (env.buildFailElapsed, some e)
  | none =>
    let r := env.perform ⟨.post, s, some gqlPayload, [("Content-Type", "application/json")]⟩
    match r.2 with
    | .transportError msg => (r.1, some msg)
    | .response code _ =>
      if code ≠ 200 then (r.1, some ("unexpected http status code: " ++ toString code))
      else (r.1, none)

/-- `func checkGRPC` in `main.go`: `strings.HasPrefix(address, "tls://")`
selects TLS credentials and strips the marker (`address[6:]`); dial failure
returns duration 0; otherwise the timed `Statistics` call decides. -/
def checkGRPC (env : Env) (address : String) : Duration × Option String :=
  let useTLS := "tls://".data.isPrefixOf address.data
  let address1 := if useTLS then String.mk (address.data.drop 6) else address
  let creds := if useTLS then Creds.tls else Creds.insecure
  match env.dial address1 creds with
  | some e => (0, some e)
  | none => env.statistics address1 creds

/-- `func checkGRPCDN` in `main.go`: same dialing logic as `checkGRPC`, but
the timed call is `TradingDataService.Info`. -/
def checkGRPCDN (env : Env) (address : String) : Duration × Option String :=
  let useTLS := "tls://".data.isPrefixOf address.data
  let address1 := if useTLS then String.mk (address.data.drop 6) else address
  let creds := if useTLS then Creds.tls else Creds.insecure
  match env.dial address1 creds with
  | some e => (0, some e)
  | none => env.info address1 creds

/-- The `errStr := ""; if err != nil { errStr = err.Error() }` idiom that
`main`'s loop repeats before each of the four appends. -/
def errStringOf : Option String → String
  | some m => m
  | none => ""

/-- The body of `main`'s loop for one validator (lines 125-186 of `main.go`):
run the four probes in fixed order (core, datanode, rest, gql) and append one
`aPIResult` per probe, with the error string reset before each probe. -/
def probeValidator (env : Env) (v : validatorConfig) : results :=
  let core := checkGRPC env v.GRPC
  let r1 : aPIResult := ⟨"core", core.1, errStringOf core.2⟩
  let dn := checkGRPCDN env v.GRPC
  let r2 : aPIResult := ⟨"datanode", dn.1, errStringOf dn.2⟩
  let rest := checkREST env v.REST
  let r3 : aPIResult := ⟨"rest", rest.1, errStringOf rest.2⟩
  let gql := checkGQL env v.GQL
  let r4 : aPIResult := ⟨"gql", gql.1, errStringOf gql.2⟩
  ⟨v.Name, [r1, r2, r3, r4]⟩

/-- Go `strings.ToLower` (the roster names are ASCII, where `Char.toLower`
agrees with Go's case mapping). -/
def goToLower (s : String) : String := String.mk (s.data.map Char.toLower)

/-- Go `strings.EqualFold`: case-insensitive equality. -/
def eqFold (a b : String) : Bool := goToLower a == goToLower b

/-- `if len(only) > 0 { only = strings.ToLower(only) }` at the top of `main`. -/
def lowerOnly (o : String) : String := if o != "" then goToLower o else o

/-- The fatal configuration errors of `main` (`log.Fatalf` call sites). -/
inductive MainError where
  | invalidOutput (s : String)
  | invalidConfig (s : String)
  | unknownValidator (s : String)
deriving DecidableEq

/-- The roster loop of `main` (lines 120-187): skip entries not matching a
non-empty `only` filter, probe the rest, accumulate in roster order. -/
def runLoop (env : Env) (only : String) : List validatorConfig → List results
  | [] => []
  | v :: vs =>
    if only != "" && !(eqFold only v.Name) then runLoop env only vs
    else probeValidator env v :: runLoop env only vs

/-- `func main` up to rendering, as a function of the environment, the result
of unmarshalling the embedded configuration, and the `--only` / `--output`
flags: validate the output mode, then the configuration, then (for a
non-empty filter) that some roster entry matches case-insensitively, and only
then run the probing loop. -/
def run (env : Env) (cfgE : Except String config) (only0 output : String) :
    Except MainError (List results) :=
  let only := lowerOnly only0
  if output = "human" ∨ output = "json" then
    match cfgE with
    | .error e => .error (.invalidConfig e)
    | .ok cfg =>
      if only != "" && !(cfg.Validators.any fun v => eqFold only v.Name) then
        .error (.unknownValidator only)
      else
        .ok (runLoop env only cfg.Validators)
  else .error (.invalidOutput output)

/-! ### Helper lemmas -/

/-- The loop body produces the four outcomes componentwise, each from its own
probe only. -/
theorem probeValidator_eq (env : Env) (v : validatorConfig) :
    probeValidator env v =
      ⟨v.Name,
        [⟨"core", (checkGRPC env v.GRPC).1, errStringOf (checkGRPC env v.GRPC).2⟩,
         ⟨"datanode", (checkGRPCDN env v.GRPC).1, errStringOf (checkGRPCDN env v.GRPC).2⟩,
         ⟨"rest", (checkREST env v.REST).1, errStringOf (checkREST env v.REST).2⟩,
         ⟨"gql", (checkGQL env v.GQL).1, errStringOf (checkGQL env v.GQL).2⟩]⟩ := rfl

theorem runLoop_no_filter (env : Env) (vs : List validatorConfig) :
    runLoop env "" vs = vs.map (probeValidator env) := by
  induction vs with
  | nil => rfl
  | cons v vs ih => simp [runLoop, ih]

theorem runLoop_filter (env : Env) {only : String} (h : only ≠ "")
    (vs : List validatorConfig) :
    runLoop env only vs
      = (vs.filter fun v => eqFold only v.Name).map (probeValidator env) := by
  induction vs with
  | nil => rfl
  | cons v vs ih =>
    by_cases hm : eqFold only v.Name
    · simp [runLoop, List.filter_cons, hm, bne_iff_ne, h, ih]
    · simp [runLoop, List.filter_cons, hm, bne_iff_ne, h, ih]

/-! ### Claim theorems -/

/-- C1: for every probed validator target, the resulting `results` bundle has
exactly 4 `aPIResult` outcomes, one per api kind, no duplicates, no omissions,
in the fixed order core, datanode, rest, gql; and each outcome is determined
by its own probe alone (for every environment, including ones where earlier
probes fail), so all four probes are always run. -/
theorem probe_four_outcomes (env : Env) (v : validatorConfig) :
    (probeValidator env v).APIResults.map aPIResult.API
        = ["core", "datanode", "rest", "gql"]
    ∧ (probeValidator env v).APIResults.length = 4
    ∧ ((probeValidator env v).APIResults.map aPIResult.API).Nodup
    ∧ (probeValidator env v).APIResults
        = [⟨"core", (checkGRPC env v.GRPC).1, errStringOf (checkGRPC env v.GRPC).2⟩,
           ⟨"datanode", (checkGRPCDN env v.GRPC).1, errStringOf (checkGRPCDN env v.GRPC).2⟩,
           ⟨"rest", (checkREST env v.REST).1, errStringOf (checkREST env v.REST).2⟩,
           ⟨"gql", (checkGQL env v.GQL).1, errStringOf (checkGQL env v.GQL).2⟩] :=
  ⟨rfl, rfl, (by decide : (["core", "datanode", "rest", "gql"] : List String).Nodup), rfl⟩

/-- C10: the error string is reset before each of the four probes, so each
outcome's error field is exactly its own probe's message (never a carry-over
from an earlier probe), and — whenever the environment's error messages are
non-empty, as Go's `err.Error()` strings are here — the field is non-empty
iff that probe itself returned an error. -/
theorem error_field_per_probe (env : Env) (v : validatorConfig)
    (hmsg : ∀ m : String,
      ((checkGRPC env v.GRPC).2 = some m ∨ (checkGRPCDN env v.GRPC).2 = some m
        ∨ (checkREST env v.REST).2 = some m ∨ (checkGQL env v.GQL).2 = some m) →
      m ≠ "") :
    (probeValidator env v).APIResults.map aPIResult.Error
        = [errStringOf (checkGRPC env v.GRPC).2, errStringOf (checkGRPCDN env v.GRPC).2,
           errStringOf (checkREST env v.REST).2, errStringOf (checkGQL env v.GQL).2]
    ∧ (errStringOf (checkGRPC env v.GRPC).2 ≠ "" ↔ ((checkGRPC env v.GRPC).2).isSome = true)
    ∧ (errStringOf (checkGRPCDN env v.GRPC).2 ≠ "" ↔ ((checkGRPCDN env v.GRPC).2).isSome = true)
    ∧ (errStringOf (checkREST env v.REST).2 ≠ "" ↔ ((checkREST env v.REST).2).isSome = true)
    ∧ (errStringOf (checkGQL env v.GQL).2 ≠ "" ↔ ((checkGQL env v.GQL).2).isSome = true) := by
  refine ⟨rfl, ?_, ?_, ?_, ?_⟩
  · cases h : (checkGRPC env v.GRPC).2 with
    | none => simp [errStringOf]
    | some m => simpa [errStringOf] using hmsg m (Or.inl h)
  · cases h : (checkGRPCDN env v.GRPC).2 with
    | none => simp [errStringOf]
    | some m => simpa [errStringOf] using hmsg m (Or.inr (Or.inl h))
  · cases h : (checkREST env v.REST).2 with
    | none => simp [errStringOf]
    | some m => simpa [errStringOf] using hmsg m (Or.inr (Or.inr (Or.inl h)))
  · cases h : (checkGQL env v.GQL).2 with
    | none => simp [errStringOf]
    | some m => simpa [errStringOf] using hmsg m (Or.inr (Or.inr (Or.inr h)))

/-- C2: with no filter set, the run succeeds with exactly one `results` entry
per roster validator, in roster order (same names, same order). -/
theorem run_no_filter_roster (env : Env) (cfg : config) (output : String)
    (hout : output = "human" ∨ output = "json") :
    run env (.ok cfg) "" output = .ok (cfg.Validators.map (probeValidator env))
    ∧ (cfg.Validators.map (probeValidator env)).length = cfg.Validators.length
    ∧ (cfg.Validators.map (probeValidator env)).map results.Name
        = cfg.Validators.map validatorConfig.Name := by
  refine ⟨?_, by simp, ?_⟩
  · unfold run
    rw [if_pos hout]
    simp [lowerOnly, runLoop_no_filter]
  · rw [List.map_map]
    rfl

/-! ### Concrete fixtures for witnesses and counterexamples -/

/-- An environment where every endpoint responds successfully. -/
def envW : Env where
  joinPath a b := .ok (a ++ "/" ++ b)
  newRequestErr _ _ := none
  buildFailElapsed := 1
  perform _ := (5, .response 200 "body")
  dial _ _ := none
  statistics _ _ := (7, none)
  info _ _ := (8, none)

/-- An environment where HTTP answers 500 and gRPC dialing fails. -/
def envErr : Env where
  joinPath a b := .ok (a ++ "/" ++ b)
  newRequestErr _ _ := none
  buildFailElapsed := 1
  perform _ := (9, .response 500 "oops")
  dial _ _ := some "connection refused"
  statistics _ _ := (7, none)
  info _ _ := (8, none)

def vA : validatorConfig := ⟨"node", "grpc.a:3002", "https://rest.a", "https://gql.a/query"⟩

def vB : validatorConfig := ⟨"NODE", "grpc.b:3002", "https://rest.b", "https://gql.b/query"⟩

def vC : validatorConfig := ⟨"other", "grpc.c:3002", "https://rest.c", "https://gql.c/query"⟩

/-- A roster whose two entries have case-insensitively equal names. -/
def cfgDup : config := ⟨[vA, vB]⟩

/-- A roster with two distinctly named entries. -/
def cfgW : config := ⟨[vA, vC]⟩

/-- C2 witness at a concrete roster and environment. -/
theorem run_no_filter_roster_witness :
    run envW (.ok cfgW) "" "json" = .ok (cfgW.Validators.map (probeValidator envW))
    ∧ (cfgW.Validators.map (probeValidator envW)).length = cfgW.Validators.length
    ∧ (cfgW.Validators.map (probeValidator envW)).map results.Name
        = cfgW.Validators.map validatorConfig.Name :=
  run_no_filter_roster envW cfgW "json" (Or.inr rfl)

/-- C3: each configuration error — an `--output` value other than `human` or
`json`, malformed configuration JSON, or a non-empty `--only` filter matching
no roster entry — makes the run fail with the corresponding fatal error, for
every environment alike: no probe is consulted and no result entry exists. -/
theorem config_error_fatal (cfgE : Except String config) (only0 output : String) :
    (¬(output = "human" ∨ output = "json") →
      ∀ env : Env, run env cfgE only0 output = .error (.invalidOutput output))
    ∧ (∀ e : String, (output = "human" ∨ output = "json") → cfgE = .error e →
      ∀ env : Env, run env cfgE only0 output = .error (.invalidConfig e))
    ∧ (∀ cfg : config, (output = "human" ∨ output = "json") → cfgE = .ok cfg →
      lowerOnly only0 ≠ "" →
      (cfg.Validators.any fun v => eqFold (lowerOnly only0) v.Name) = false →
      ∀ env : Env, run env cfgE only0 output = .error (.unknownValidator (lowerOnly only0))) := by
  refine ⟨fun hout env => ?_, fun e hout he env => ?_, fun cfg hout hc honly hnone env => ?_⟩
  · unfold run
    rw [if_neg hout]
  · unfold run
    rw [if_pos hout, he]
  · unfold run
    rw [if_pos hout, hc]
    simp only [hnone, Bool.not_false, Bool.and_true, bne_iff_ne, ne_eq]
    rw [if_pos honly]

/-- C3 witness: the three fatal cases at concrete inputs. -/
theorem config_error_fatal_witness :
    run envW (.ok cfgW) "" "xml" = .error (.invalidOutput "xml")
    ∧ run envW (.error "bad json") "" "json" = .error (.invalidConfig "bad json")
    ∧ run envW (.ok cfgW) "ghost" "human" = .error (.unknownValidator (lowerOnly "ghost")) :=
  ⟨(config_error_fatal (.ok cfgW) "" "xml").1 (by decide) envW,
   (config_error_fatal (.error "bad json") "" "json").2.1 "bad json" (Or.inr rfl) rfl envW,
   (config_error_fatal (.ok cfgW) "ghost" "human").2.2 cfgW (Or.inl rfl) rfl
     (by decide) (by decide) envW⟩

/-- C4 counterexample: with a roster holding two validators whose names are
case-insensitively equal (`node` and `NODE`), the filter `--only node` matches
a roster entry, yet the run produces 2 entries, not exactly 1. -/
theorem only_one_entry_counterexample :
    (cfgDup.Validators.any fun v => eqFold (lowerOnly "node") v.Name) = true
    ∧ run envW (.ok cfgDup) "node" "json"
        = .ok [probeValidator envW vA, probeValidator envW vB]
    ∧ (run envW (.ok cfgDup) "node" "json").map List.length = .ok 2 := by
  refine ⟨by decide, by rfl, by rfl⟩

/-- C4 amended: when the filter matches exactly one roster validator
case-insensitively, the run produces exactly 1 entry, and it is the matching
validator's. -/
theorem only_unique_match (env : Env) (cfg : config) (only0 output : String)
    (v : validatorConfig)
    (hout : output = "human" ∨ output = "json")
    (honly : lowerOnly only0 ≠ "")
    (huniq : cfg.Validators.filter (fun w => eqFold (lowerOnly only0) w.Name) = [v]) :
    run env (.ok cfg) only0 output = .ok [probeValidator env v]
    ∧ (probeValidator env v).Name = v.Name := by
  have hv : v ∈ cfg.Validators.filter fun w => eqFold (lowerOnly only0) w.Name := by
    rw [huniq]; exact List.mem_singleton_self v
  have hmem := (List.mem_filter.mp hv).1
  have hpred := (List.mem_filter.mp hv).2
  have hany : (cfg.Validators.any fun w => eqFold (lowerOnly only0) w.Name) = true :=
    List.any_eq_true.mpr ⟨v, hmem, hpred⟩
  refine ⟨?_, rfl⟩
  unfold run
  rw [if_pos hout]
  simp only [hany, Bool.not_true, Bool.and_false, if_false]
  rw [runLoop_filter env honly, huniq]
  rfl

/-- C4 amended witness: `--only NoDe` and a roster where only `node` matches. -/
theorem only_unique_match_witness :
    run envW (.ok cfgW) "NoDe" "human" = .ok [probeValidator envW vA]
    ∧ (probeValidator envW vA).Name = vA.Name :=
  only_unique_match envW cfgW "NoDe" "human" vA (Or.inl rfl) (by decide) (by decide)

/-- C5: for REST and GraphQL probes whose HTTP exchange completes with a
status other than 200, the probe errors with a message carrying that status
code, alongside the elapsed duration; a 200 status is success, for any
response body (the body is never inspected). -/
theorem http_nonok_status (env : Env) :
    (∀ address s : String, ∀ t : Duration, ∀ code : Int, ∀ body : String,
      env.joinPath address "api/v2/info" = .ok s →
      env.newRequestErr .get s = none →
      env.perform ⟨.get, s, none, []⟩ = (t, .response code body) →
      (code ≠ 200 → checkREST env address
          = (t, some ("unexpected http status code: " ++ toString code)))
      ∧ (code = 200 → checkREST env address = (t, none)))
    ∧ (∀ address : String, ∀ t : Duration, ∀ code : Int, ∀ body : String,
      env.newRequestErr .post address = none →
      env.perform ⟨.post, address, some gqlPayload, [("Content-Type", "application/json")]⟩
        = (t, .response code body) →
      (code ≠ 200 → checkGQL env address
          = (t, some ("unexpected http status code: " ++ toString code)))
      ∧ (code = 200 → checkGQL env address = (t, none))) := by
  constructor
  · intro address s t code body hjoin hreq hperf
    refine ⟨fun hne => ?_, fun h200 => ?_⟩
    · simp only [checkREST, hjoin, hreq, hperf]
      simp [hne]
    · simp only [checkREST, hjoin, hreq, hperf]
      simp [h200]
  · intro address t code body hreq hperf
    refine ⟨fun hne => ?_, fun h200 => ?_⟩
    · simp only [checkGQL, hreq, hperf]
      simp [hne]
    · simp only [checkGQL, hreq, hperf]
      simp [h200]

/-- C5 witness: against `envErr` (which answers 500) both probes report the
status; against `envW` (which answers 200) both succeed. -/
theorem http_nonok_status_witness :
    checkREST envErr "https://rest.a"
      = (9, some ("unexpected http status code: " ++ toString (500 : Int)))
    ∧ checkGQL envErr "https://gql.a/query"
      = (9, some ("unexpected http status code: " ++ toString (500 : Int)))
    ∧ checkREST envW "https://rest.a" = (5, none)
    ∧ checkGQL envW "https://gql.a/query" = (5, none) :=
  ⟨((http_nonok_status envErr).1 "https://rest.a" ("https://rest.a" ++ "/" ++ "api/v2/info")
      9 500 "oops" rfl rfl rfl).1 (by decide),
   ((http_nonok_status envErr).2 "https://gql.a/query" 9 500 "oops" rfl rfl).1 (by decide),
   ((http_nonok_status envW).1 "https://rest.a" ("https://rest.a" ++ "/" ++ "api/v2/info")
      5 200 "body" rfl rfl rfl).2 rfl,
   ((http_nonok_status envW).2 "https://gql.a/query" 5 200 "body" rfl rfl).2 rfl⟩

/-- C6: both gRPC probes strip exactly the `tls://` marker (when present) and
dial the remainder with TLS credentials, otherwise dial the unchanged address
with insecure credentials; a dial failure is returned as-is with duration 0,
and otherwise the timed service call decides the outcome. -/
theorem grpc_tls_marker (env : Env) (address : String) :
    ("tls://".data.isPrefixOf address.data = true →
      address = "tls://" ++ String.mk (address.data.drop 6)
      ∧ (∀ e : String, env.dial (String.mk (address.data.drop 6)) Creds.tls = some e →
          checkGRPC env address = (0, some e) ∧ checkGRPCDN env address = (0, some e))
      ∧ (env.dial (String.mk (address.data.drop 6)) Creds.tls = none →
          checkGRPC env address = env.statistics (String.mk (address.data.drop 6)) Creds.tls
          ∧ checkGRPCDN env address = env.info (String.mk (address.data.drop 6)) Creds.tls))
    ∧ ("tls://".data.isPrefixOf address.data = false →
      (∀ e : String, env.dial address Creds.insecure = some e →
          checkGRPC env address = (0, some e) ∧ checkGRPCDN env address = (0, some e))
      ∧ (env.dial address Creds.insecure = none →
          checkGRPC env address = env.statistics address Creds.insecure
          ∧ checkGRPCDN env address = env.info address Creds.insecure)) := by
  constructor
  · intro hpre
    have hp : "tls://".data <+: address.data := List.isPrefixOf_iff_prefix.mp hpre
    obtain ⟨tl, htl⟩ := hp
    have hdrop : address.data.drop 6 = tl := by
      rw [← htl]
      exact List.drop_left' (by decide)
    refine ⟨?_, ?_, ?_⟩
    · apply String.ext
      rw [String.data_append, hdrop, htl]
    · intro e hdial
      constructor
      · unfold checkGRPC
        simp only [hpre, if_true]
        rw [hdial]
      · unfold checkGRPCDN
        simp only [hpre, if_true]
        rw [hdial]
    · intro hdial
      constructor
      · unfold checkGRPC
        simp only [hpre, if_true]
        rw [hdial]
      · unfold checkGRPCDN
        simp only [hpre, if_true]
        rw [hdial]
  · intro hpre
    constructor
    · intro e hdial
      constructor
      · unfold checkGRPC
        simp only [hpre, Bool.false_eq_true, if_false]
        rw [hdial]
      · unfold checkGRPCDN
        simp only [hpre, Bool.false_eq_true, if_false]
        rw [hdial]
    · intro hdial
      constructor
      · unfold checkGRPC
        simp only [hpre, Bool.false_eq_true, if_false]
        rw [hdial]
      · unfold checkGRPCDN
        simp only [hpre, Bool.false_eq_true, if_false]
        rw [hdial]

/-- C6 witness: a `tls://` address under a failing dial, and a plain address
under a successful dial. -/
theorem grpc_tls_marker_witness :
    "tls://grpc.a:3007" = "tls://" ++ String.mk ("tls://grpc.a:3007".data.drop 6)
    ∧ checkGRPC envErr "tls://grpc.a:3007" = (0, some "connection refused")
    ∧ checkGRPCDN envErr "tls://grpc.a:3007" = (0, some "connection refused")
    ∧ checkGRPC envW "grpc.a:3002" = envW.statistics "grpc.a:3002" Creds.insecure
    ∧ checkGRPCDN envW "grpc.a:3002" = envW.info "grpc.a:3002" Creds.insecure := by
  have h1 := (grpc_tls_marker envErr "tls://grpc.a:3007").1 (by decide)
  have h2 := (grpc_tls_marker envW "grpc.a:3002").2 (by decide)
  exact ⟨h1.1, (h1.2.1 "connection refused" rfl).1, (h1.2.1 "connection refused" rfl).2,
    (h2.2 rfl).1, (h2.2 rfl).2⟩

/-- C7: the GraphQL probe's only HTTP exchange is a POST of the fixed payload
with header `Content-Type: application/json` whose URL is the address itself
(no path joined on): two environments that agree on exactly that one request
(and on request construction for it) give identical `checkGQL` outcomes. The
REST probe, by contrast, is determined by the GET request whose URL is
`url.JoinPath address "api/v2/info"`. -/
theorem gql_full_url_post (envA envB : Env) (address : String) :
    (envA.newRequestErr .post address = envB.newRequestErr .post address →
      envA.buildFailElapsed = envB.buildFailElapsed →
      envA.perform ⟨.post, address, some gqlPayload, [("Content-Type", "application/json")]⟩
        = envB.perform ⟨.post, address, some gqlPayload, [("Content-Type", "application/json")]⟩ →
      checkGQL envA address = checkGQL envB address)
    ∧ (∀ s : String,
      envA.joinPath address "api/v2/info" = .ok s →
      envB.joinPath address "api/v2/info" = .ok s →
      envA.newRequestErr .get s = envB.newRequestErr .get s →
      envA.buildFailElapsed = envB.buildFailElapsed →
      envA.perform ⟨.get, s, none, []⟩ = envB.perform ⟨.get, s, none, []⟩ →
      checkREST envA address = checkREST envB address) := by
  constructor
  · intro hreq hbuild hperf
    simp only [checkGQL, hreq, hbuild, hperf]
  · intro s hjA hjB hreq hbuild hperf
    simp only [checkREST, hjA, hjB, hreq, hbuild, hperf]

/-- C7 witness: two environments agreeing on the one GraphQL request (and on
the one REST request) yield the same outcomes, at a concrete address. -/
theorem gql_full_url_post_witness :
    checkGQL envW "https://gql.a/query"
      = checkGQL { envW with dial := fun _ _ => some "x" } "https://gql.a/query"
    ∧ checkREST envW "https://rest.a"
      = checkREST { envW with dial := fun _ _ => some "x" } "https://rest.a" :=
  ⟨(gql_full_url_post envW { envW with dial := fun _ _ => some "x" } "https://gql.a/query").1
      rfl rfl rfl,
   (gql_full_url_post envW { envW with dial := fun _ _ => some "x" } "https://rest.a").2
      ("https://rest.a" ++ "/" ++ "api/v2/info") rfl rfl rfl rfl rfl⟩

/-- C8: a base address that `url.JoinPath` cannot join into a REST target URL
makes the REST probe fail immediately, returning the join error with duration
exactly 0 — for every environment sharing that join result, independently of
any request behaviour. -/
theorem rest_malformed_base_zero (env : Env) (address e : String)
    (hjoin : env.joinPath address "api/v2/info" = .error e) :
    checkREST env address = (0, some e) := by
  simp only [checkREST, hjoin]

/-- C8 witness: an environment whose join of the concrete base fails. -/
theorem rest_malformed_base_zero_witness :
    checkREST { envW with joinPath := fun _ _ => .error "invalid URL" } ":badbase"
      = (0, some "invalid URL") :=
  rest_malformed_base_zero { envW with joinPath := fun _ _ => .error "invalid URL" }
    ":badbase" "invalid URL" rfl

/-! ### JSON encoding of the result set

`json.Marshal` / `json.Unmarshal` are modelled at the level of a JSON syntax
tree: `encoding/json` serialises `time.Duration` as its `int64` nanosecond
count, and every struct field here lacks `omitempty`, so `error` is always
present as a string. Decoding follows Go's lenient object decoding: unknown
keys are ignored, a missing key leaves the zero value, a key bound to a value
of the wrong kind is an error. -/

inductive Json where
  | null
  | str (s : String)
  | num (n : Int)
  | arr (elems : List Json)
  | obj (fields : List (String × Json))

/-- `json.Marshal` of one `aPIResult` (struct field order). -/
def marshalAPIResult (r : aPIResult) : Json :=
  .obj [("api", .str r.API), ("time_taken", .num r.TimeTaken), ("error", .str r.Error)]

/-- `json.Marshal` of one `results` entry. -/
def marshalResults (r : results) : Json :=
  .obj [("name", .str r.Name), ("api_results", .arr (r.APIResults.map marshalAPIResult))]

/-- `json.Marshal` of the full result set (`res` in `main`). -/
def marshalResultSet (rs : List results) : Json :=
  .arr (rs.map marshalResults)

/-- First binding of a key in a JSON object. -/
def jsonLookup (fields : List (String × Json)) (key : String) : Option Json :=
  (fields.find? fun p => p.1 == key).map Prod.snd

/-- Decode a `string` field: missing keeps the zero value `""`. -/
def decodeStringField (j : Option Json) : Option String :=
  match j with
  | none => some ""
  | some (.str s) => some s
  | some _ => none

/-- Decode a `time.Duration` field: missing keeps the zero value `0`. -/
def decodeDurationField (j : Option Json) : Option Duration :=
  match j with
  | none => some 0
  | some (.num n) => some n
  | some _ => none

/-- `json.Unmarshal` into one `aPIResult`. -/
def decodeAPIResult : Json → Option aPIResult
  | .obj fields =>
    match decodeStringField (jsonLookup fields "api"),
        decodeDurationField (jsonLookup fields "time_taken"),
        decodeStringField (jsonLookup fields "error") with
    | some api, some t, some e => some ⟨api, t, e⟩
    | _, _, _ => none
  | _ => none

/-- Decode a JSON array elementwise into `aPIResult`s (Go decodes a slice by
decoding each element in order, failing on the first bad element). -/
def decodeAPIResultList : List Json → Option (List aPIResult)
  | [] => some []
  | x :: xs =>
    match decodeAPIResult x, decodeAPIResultList xs with
    | some a, some l => some (a :: l)
    | _, _ => none

/-- Decode the `api_results` slice: missing or `null` leaves a nil slice. -/
def decodeAPIResultsField (j : Option Json) : Option (List aPIResult) :=
  match j with
  | none => some []
  | some .null => some []
  | some (.arr xs) => decodeAPIResultList xs
  | some _ => none

/-- `json.Unmarshal` into one `results` entry. -/
def decodeResults : Json → Option results
  | .obj fields =>
    match decodeStringField (jsonLookup fields "name"),
        decodeAPIResultsField (jsonLookup fields "api_results") with
    | some name, some rs => some ⟨name, rs⟩
    | _, _ => none
  | _ => none

/-- Decode a JSON array elementwise into `results` entries. -/
def decodeResultsList : List Json → Option (List results)
  | [] => some []
  | x :: xs =>
    match decodeResults x, decodeResultsList xs with
    | some r, some l => some (r :: l)
    | _, _ => none

/-- `json.Unmarshal` into the full result set. -/
def decodeResultSet : Json → Option (List results)
  | .arr xs => decodeResultsList xs
  | .null => some []
  | _ => none

theorem decodeAPIResult_marshal (a : aPIResult) :
    decodeAPIResult (marshalAPIResult a) = some a := rfl

theorem decodeAPIResultList_marshal (l : List aPIResult) :
    decodeAPIResultList (l.map marshalAPIResult) = some l := by
  induction l with
  | nil => rfl
  | cons a l ih => simp [decodeAPIResultList, decodeAPIResult_marshal, ih]

theorem decodeResults_marshal (r : results) :
    decodeResults (marshalResults r) = some r := by
  simp [marshalResults, decodeResults, jsonLookup, decodeStringField, decodeAPIResultsField,
    List.find?, decodeAPIResultList_marshal]

/-- C9: marshalling a result set to JSON and unmarshalling it back yields the
original, field for field: `name`, `api`, `time_taken` as a duration value,
and `error` as a string (always present, since the field lacks `omitempty`). -/
theorem resultSet_json_round_trip (rs : List results) :
    decodeResultSet (marshalResultSet rs) = some rs := by
  induction rs with
  | nil => rfl
  | cons r rs ih =>
    simp only [marshalResultSet, decodeResultSet] at ih ⊢
    simp [decodeResultsList, decodeResults_marshal, ih]

/-- C10 witness: in `envErr` all four probes fail with non-empty messages. -/
theorem error_field_per_probe_witness :
    (probeValidator envErr vA).APIResults.map aPIResult.Error
        = [errStringOf (checkGRPC envErr vA.GRPC).2, errStringOf (checkGRPCDN envErr vA.GRPC).2,
           errStringOf (checkREST envErr vA.REST).2, errStringOf (checkGQL envErr vA.GQL).2]
    ∧ (errStringOf (checkGRPC envErr vA.GRPC).2 ≠ ""
        ↔ ((checkGRPC envErr vA.GRPC).2).isSome = true)
    ∧ (errStringOf (checkGRPCDN envErr vA.GRPC).2 ≠ ""
        ↔ ((checkGRPCDN envErr vA.GRPC).2).isSome = true)
    ∧ (errStringOf (checkREST envErr vA.REST).2 ≠ ""
        ↔ ((checkREST envErr vA.REST).2).isSome = true)
    ∧ (errStringOf (checkGQL envErr vA.GQL).2 ≠ ""
        ↔ ((checkGQL envErr vA.GQL).2).isSome = true) :=
  error_field_per_probe envErr vA (by
    intro m h
    rcases h with h | h | h | h
    · rw [show (checkGRPC envErr vA.GRPC).2 = some "connection refused" from rfl] at h
      cases h
      decide
    · rw [show (checkGRPCDN envErr vA.GRPC).2 = some "connection refused" from rfl] at h
      cases h
      decide
    · rw [show (checkREST envErr vA.REST).2
          = some ("unexpected http status code: " ++ toString (500 : Int)) from rfl] at h
      cases h
      decide
    · rw [show (checkGQL envErr vA.GQL).2
          = some ("unexpected http status code: " ++ toString (500 : Int)) from rfl] at h
      cases h
      decide)

end CheckValidatorSetup
